import Mathlib

/-!
Shallow embedding of `src/bin/wallet.rs` (solana-wallet command-line client).

The wallet core under `src/` is embedded directly: the command enum, the
argument-to-command construction (`parse_args`, after the clap layer has
matched flags), command execution (`process_command`), the token-grant
request (`request_airdrop`), and `main`.

External collaborators that are out of scope for the spec (the bs58 crate,
integer parsing, the clap framework) are passed in as function parameters.
Repository code that is not under `src/` (solana::thin_client::ThinClient,
solana::drone::DroneRequest, solana::crdt::NodeInfo) is modelled from the
spec, as noted on each definition.

Observable behavior — printed lines, sleeps, socket activity, network
calls — is recorded as a trace of events, so that ordering and counting
properties ("sends the grant request first", "queries the balance exactly
once", "no network activity") are provable.
-/

namespace Wallet

/-- Fixed-width account identifier, byte-exact equality (spec section 3); the
concrete width lives in solana::signature, outside src. A public key is a
byte vector. -/
abbrev PublicKey := List Nat

/-- Fixed-width signature value, byte-exact equality (spec section 3). -/
abbrev Signature := List Nat

/-- Modelled from the spec: byte width of a PublicKey
(std::mem::size_of::<PublicKey>() in the source; solana::signature is not
under src). The claims only depend on "the expected byte width". -/
def publicKeySize : Nat := 32

/-- Modelled from the spec: byte width of a Signature
(std::mem::size_of::<Signature>() in the source). -/
def signatureSize : Nat := 64

/-- PublicKey::clone_from_slice: builds a PublicKey from a byte vector
(only reached when the length check has passed). -/
def PublicKey.clone_from_slice (v : List Nat) : PublicKey := v

/-- Signature::clone_from_slice. -/
def Signature.clone_from_slice (v : List Nat) : Signature := v

/-- Modelled from the spec: a keypair is an asymmetric signing identity with
a derivable public key (spec section 3); solana::signature::KeyPair is not
under src. Only the derived public key is observable in the wallet core. -/
structure KeyPair where
  pubkey : PublicKey
  deriving Repr, DecidableEq

/-- An IPv4 address (std::net::Ipv4Addr). -/
structure Ipv4Addr where
  a : Nat
  b : Nat
  c : Nat
  d : Nat
  deriving Repr, DecidableEq

/-- std::net::SocketAddr: an address plus a port; set_port replaces only
the port. -/
structure SocketAddr where
  ip : Ipv4Addr
  port : Nat
  deriving Repr, DecidableEq

/-- SocketAddr::set_port. -/
def SocketAddr.set_port (s : SocketAddr) (p : Nat) : SocketAddr :=
  { s with port := p }

/-- Modelled from the spec: the node descriptor's contact info exposes the
ledger-query address (rpu) and the transaction-service address (tpu)
(spec section 6); solana::crdt is not under src. -/
structure ContactInfo where
  rpu : SocketAddr
  tpu : SocketAddr
  deriving Repr, DecidableEq

/-- Modelled from the spec: node descriptor (solana::crdt::NodeInfo, not
under src); only its contact info is read by the wallet core. -/
structure NodeInfo where
  contact_info : ContactInfo
  deriving Repr, DecidableEq

/-- Modelled from the spec: NodeInfo::new_leader builds a default node
descriptor from one socket address (solana::crdt, not under src); the
claims never inspect the resulting addresses of the default leader. -/
def NodeInfo.new_leader (addr : SocketAddr) : NodeInfo :=
  { contact_info := { rpu := addr, tpu := addr } }

/-- enum WalletCommand (wallet.rs lines 25-31): the closed set of user
intents. Amounts are signed 64-bit integers in the source, embedded as Int. -/
inductive WalletCommand where
  | Address : WalletCommand
  | Balance : WalletCommand
  | AirDrop : Int → WalletCommand
  | Pay : Int → PublicKey → WalletCommand
  | Confirm : Signature → WalletCommand
  deriving Repr, DecidableEq

/-- enum WalletError (wallet.rs lines 33-37). -/
inductive WalletError where
  | CommandNotRecognized : String → WalletError
  | BadParameter : String → WalletError
  deriving Repr, DecidableEq

/-- std::io::ErrorKind, restricted to the kinds the wallet distinguishes:
Other (the well-formed "no account record" answer from poll_get_balance)
versus everything else. -/
inductive IoErrorKind where
  | other : IoErrorKind
  | timedOut : IoErrorKind
  | connectionRefused : IoErrorKind
  | invalidData : IoErrorKind
  | wouldBlock : IoErrorKind
  deriving Repr, DecidableEq

/-- std::io::Error: a kind plus the error detail text. -/
structure IoError where
  kind : IoErrorKind
  msg : String
  deriving Repr, DecidableEq

/-- Debug rendering of an io::Error, as interpolated by the source's
println of "An error occurred"; it carries the error detail text. -/
def IoError.debugStr (e : IoError) : String :=
  "Custom (" ++ e.msg ++ ")"

/-- struct WalletConfig (wallet.rs lines 56-61). -/
structure WalletConfig where
  leader : NodeInfo
  id : KeyPair
  drone_addr : SocketAddr
  command : WalletCommand
  deriving Repr, DecidableEq

/-- Modelled from the spec: the single serialized token-grant request value,
with fields for the requested amount (unsigned 64-bit) and the requester's
public key (spec section 6; solana::drone::DroneRequest is not under src). -/
inductive DroneRequest where
  | GetAirdrop : Nat → PublicKey → DroneRequest
  deriving Repr, DecidableEq

/-- The i64-to-u64 reinterpreting cast `tokens as u64` at wallet.rs line 241:
reduce modulo 2^64 and read the representative in [0, 2^64). -/
def i64_as_u64 (t : Int) : Nat :=
  (t % ((2 : Int) ^ 64)).toNat

/-- One observable step of the process: a printed line, a sleep, socket
construction, a connection attempt, a completed request write, or one of the
ThinClient network calls. -/
inductive Event where
  | printedLine : String → Event
  | sleptMs : Nat → Event
  | udpSocketBound : Event
  | tcpConnect : SocketAddr → Event
  | tcpWrite : DroneRequest → Event
  | polledBalance : PublicKey → Event
  | fetchedLastId : Event
  | submittedTransfer : Int → PublicKey → PublicKey → Nat → Event
  | checkedSignature : Signature → Event
  deriving Repr, DecidableEq

/-- True exactly on the events that touch the network or construct a
network resource (everything except prints and sleeps). -/
def Event.isNetwork : Event → Bool
  | .printedLine _ => false
  | .sleptMs _ => false
  | _ => true

/-- The erased error type carried by Result's Box of dyn Error in the
source: a WalletError, an integer-parse error from str::parse, or an
io::Error. -/
inductive ProgError where
  | wallet : WalletError → ProgError
  | parseInt : ProgError
  | io : IoError → ProgError
  deriving Repr, DecidableEq

/-- How a command (or the whole process) terminates: a Rust panic, a
propagated error (Box of dyn Error, causing a non-zero exit from main), or
normal completion (exit 0). -/
inductive ExecResult where
  | panicked : String → ExecResult
  | errored : ProgError → ExecResult
  | ok : ExecResult
  deriving Repr, DecidableEq

end Wallet

namespace Wallet

/-- Out-of-scope external collaborators (spec section 1), passed in as
parameters: base-58 decode and encode (bs58 crate) and signed-64-bit
integer parsing (str::parse). Decode returns none when the text is not
valid base-58; parse returns none when the text is not a valid i64. -/
structure Externals where
  bs58_decode : String → Option (List Nat)
  bs58_encode : List Nat → String
  parse_i64 : String → Option Int

/-- Modelled from the spec: the ledger-query/transaction client,
solana::thin_client::ThinClient, is not under src. Each field is the answer
the remote service gives to the corresponding call within this single
invocation: poll_get_balance (spec 4.2 getBalance, an io::Result whose
ErrorKind Other means "no account record"), get_last_id (spec 4.2
getLatestReferenceId; per the spec "failure here aborts the payment command
with a propagated error", so it is modelled as fallible), transfer_result
(spec 4.2 submitTransfer, which "fails and propagates if the submission
transport errors"), and check_signature (spec 4.2 confirmSignature, a
plain boolean). -/
structure ThinClient where
  poll_get_balance : Except IoError Int
  get_last_id : Except IoError Nat
  transfer_result : Except IoError Signature
  check_signature : Signature → Bool

/-- The token-grant connection's behavior for this invocation: the outcome
of TcpStream::connect, whether bincode serialization of the request
succeeds (the source's expect panics otherwise), and the outcome of
write_all (the source's unwrap panics on error). -/
structure DroneConn where
  connect : Except IoError Unit
  serialize_ok : Bool
  write_all : Except IoError Unit

/-- request_airdrop (wallet.rs lines 298-312): connect to the drone
address (a connect error propagates via the question-mark operator), build
the single GetAirdrop request carrying the amount and the caller's public
key, serialize it (expect: panic on failure), write it in full (unwrap:
panic on failure), and return Ok as soon as the write completes — nothing
is read back from the stream. -/
def request_airdrop (conn : DroneConn) (drone_addr : SocketAddr)
    (id : KeyPair) (tokens : Nat) : List Event × ExecResult :=
  match conn.connect with
  | .error e => ([.tcpConnect drone_addr], .errored (.io e))
  | .ok _ =>
    if conn.serialize_ok then
      match conn.write_all with
      | .error _ =>
        ([.tcpConnect drone_addr], .panicked "called Result::unwrap on an Err value")
      | .ok _ =>
        ([.tcpConnect drone_addr, .tcpWrite (.GetAirdrop tokens id.pubkey)], .ok)
    else
      ([.tcpConnect drone_addr], .panicked "serialize drone request")

/-- The help lines printed by display_actions (wallet.rs lines 267-276). -/
def display_actions_lines : List String :=
  ["", "Commands:",
   "  address   Get your public key",
   "  balance   Get your account balance",
   "  airdrop   Request a batch of tokens",
   "  pay       Send tokens to a public key",
   "  confirm   Confirm your last payment by signature",
   ""]

/-- display_actions as a sequence of print events. -/
def display_actions : List Event :=
  display_actions_lines.map Event.printedLine

/-- The matched subcommand and its textual parameters, as delivered by the
out-of-scope clap layer (spec section 6): required parameters are present
as strings, the pay recipient is optional, and noSubcommand is the empty
match of wallet.rs line 195 (clap itself rules out unknown names, the
unreachable arm at line 201). -/
inductive SubcommandMatches where
  | airdrop : String → SubcommandMatches
  | pay : String → Option String → SubcommandMatches
  | confirm : String → SubcommandMatches
  | balance : SubcommandMatches
  | address : SubcommandMatches
  | noSubcommand : SubcommandMatches
  deriving Repr, DecidableEq

/-- The inputs parse_args reads besides the subcommand: the node descriptor
loaded by read_leader when a leader path was given (file loading is out of
scope), and the result of read_keypair (whose expect panics on failure). -/
structure ParseInputs where
  leader_arg : Option NodeInfo
  keypair : Except Unit KeyPair

/-- Outcome of parse_args: a panic, a propagated error, or a validated
WalletConfig. -/
inductive ParseOutcome where
  | panicked : String → ParseOutcome
  | errored : ProgError → ParseOutcome
  | ok : WalletConfig → ParseOutcome
  deriving Repr, DecidableEq

/-- The leader selection at wallet.rs lines 143-149: the node descriptor
read from the leader file when the flag was given, otherwise a default
leader at 0.0.0.0 port 8000. -/
def leaderFrom (inp : ParseInputs) : NodeInfo :=
  match inp.leader_arg with
  | some l => l
  | none => NodeInfo.new_leader { ip := ⟨0, 0, 0, 0⟩, port := 8000 }

/-- parse_args (wallet.rs lines 75-210), after the clap layer has matched
flags: pick the leader (given or default), load the keypair (expect:
panic on failure), derive the drone address by resetting the port of the
leader's transaction-service address to 9900, then build exactly one
WalletCommand from the matched subcommand, validating textual parameters
first — a base-58 decode failure panics through expect, a successful
decode of the wrong byte length re-displays the help text and fails with
BadParameter, a missing pay recipient defaults to the caller's own public
key, a token-amount parse failure propagates, and an empty subcommand
re-displays the help text and fails with CommandNotRecognized. -/
def parse_args (ext : Externals) (inp : ParseInputs)
    (sub : SubcommandMatches) : List Event × ParseOutcome :=
  let leader : NodeInfo := leaderFrom inp
  match inp.keypair with
  | .error _ => ([], .panicked "client keypair")
  | .ok id =>
    let drone_addr := (leader.contact_info.tpu).set_port 9900
    match sub with
    | .airdrop tokens_str =>
      match ext.parse_i64 tokens_str with
      | none => ([], .errored .parseInt)
      | some tokens =>
        ([], .ok { leader, id, drone_addr, command := .AirDrop tokens })
    | .pay tokens_str to_arg =>
      match to_arg with
      | some to_str =>
        match ext.bs58_decode to_str with
        | none => ([], .panicked "base58-encoded public key")
        | some pubkey_vec =>
          if pubkey_vec.length ≠ publicKeySize then
            (display_actions, .errored (.wallet (.BadParameter "Invalid public key")))
          else
            match ext.parse_i64 tokens_str with
            | none => ([], .errored .parseInt)
            | some tokens =>
              ([], .ok { leader, id, drone_addr,
                         command := .Pay tokens (PublicKey.clone_from_slice pubkey_vec) })
      | none =>
        match ext.parse_i64 tokens_str with
        | none => ([], .errored .parseInt)
        | some tokens =>
          ([], .ok { leader, id, drone_addr, command := .Pay tokens id.pubkey })
    | .confirm sig_str =>
      match ext.bs58_decode sig_str with
      | none => ([], .panicked "base58-encoded signature")
      | some sig_vec =>
        if sig_vec.length = signatureSize then
          ([], .ok { leader, id, drone_addr,
                     command := .Confirm (Signature.clone_from_slice sig_vec) })
        else
          (display_actions, .errored (.wallet (.BadParameter "Invalid signature")))
    | .balance => ([], .ok { leader, id, drone_addr, command := .Balance })
    | .address => ([], .ok { leader, id, drone_addr, command := .Address })
    | .noSubcommand =>
      (display_actions, .errored (.wallet (.CommandNotRecognized "no subcommand given")))

/-- process_command (wallet.rs lines 212-265): dispatch on the validated
command. Balance gets the three-way render; AirDrop calls request_airdrop
(propagating its failure before any sleep or poll), then sleeps 100 ms,
then polls the balance once, unwrapping the result (panic on error); Pay
fetches the last id (modelled fallible per spec 4.2, failure propagating
before the transfer), then transfers (failure propagating), then prints
the base-58 signature; Confirm prints one of two fixed lines from the
boolean. -/
def process_command (ext : Externals) (config : WalletConfig)
    (client : ThinClient) (conn : DroneConn) : List Event × ExecResult :=
  match config.command with
  | .Address =>
    ([.printedLine (ext.bs58_encode config.id.pubkey)], .ok)
  | .Balance =>
    let evs := [Event.printedLine "Balance requested...",
                Event.polledBalance config.id.pubkey]
    match client.poll_get_balance with
    | .ok balance =>
      (evs ++ [.printedLine ("Your balance is: " ++ toString balance)], .ok)
    | .error e =>
      if e.kind = IoErrorKind.other then
        (evs ++ [.printedLine "No account found! Request an airdrop to get started."], .ok)
      else
        (evs ++ [.printedLine ("An error occurred: " ++ e.debugStr)], .ok)
  | .AirDrop tokens =>
    let intro := [Event.printedLine "Airdrop requested...",
                  Event.printedLine ("Airdropping " ++ toString tokens ++ " tokens")]
    match request_airdrop conn config.drone_addr config.id (i64_as_u64 tokens) with
    | (evs, .ok) =>
      let evs2 := intro ++ evs ++ [Event.sleptMs 100, .polledBalance config.id.pubkey]
      match client.poll_get_balance with
      | .ok balance =>
        (evs2 ++ [.printedLine ("Your balance is: " ++ toString balance)], .ok)
      | .error _ =>
        (evs2, .panicked "called Result::unwrap on an Err value")
    | (evs, r) => (intro ++ evs, r)
  | .Pay tokens to_pk =>
    match client.get_last_id with
    | .error e => ([Event.fetchedLastId], .errored (.io e))
    | .ok last_id =>
      let evs := [Event.fetchedLastId,
                  Event.submittedTransfer tokens config.id.pubkey to_pk last_id]
      match client.transfer_result with
      | .error e => (evs, .errored (.io e))
      | .ok sig => (evs ++ [.printedLine (ext.bs58_encode sig)], .ok)
  | .Confirm sig =>
    if client.check_signature sig then
      ([.checkedSignature sig, .printedLine "Confirmed"], .ok)
    else
      ([.checkedSignature sig, .printedLine "Not found"], .ok)

/-- mk_client (wallet.rs lines 283-296): binds the two ephemeral UDP
sockets (requests and transactions) and sets the 1-second read timeout on
the requests socket; the remote behavior of the returned ThinClient is the
oracle passed to process_command. Recorded as socket-construction events. -/
def mk_client (_r : NodeInfo) : List Event :=
  [Event.udpSocketBound, Event.udpSocketBound]

/-- main (wallet.rs lines 314-319): parse the arguments (propagating
failure before any client is constructed), build the client, process the
command, and return its result; Ok means the process exits 0. -/
def main (ext : Externals) (inp : ParseInputs) (sub : SubcommandMatches)
    (client : ThinClient) (conn : DroneConn) : List Event × ExecResult :=
  match parse_args ext inp sub with
  | (evs, .panicked msg) => (evs, .panicked msg)
  | (evs, .errored e) => (evs, .errored e)
  | (evs, .ok config) =>
    let clientEvs := mk_client config.leader
    let (evs2, r) := process_command ext config client conn
    (evs ++ clientEvs ++ evs2, r)

end Wallet

namespace Wallet

/-- Concrete keypair used by the closed witness theorems. -/
def kpW : KeyPair := { pubkey := List.replicate publicKeySize 7 }

/-- Concrete node descriptor used by the closed witness theorems. -/
def leaderW : NodeInfo :=
  { contact_info :=
    { rpu := { ip := ⟨10, 0, 0, 1⟩, port := 8100 }
    , tpu := { ip := ⟨10, 0, 0, 2⟩, port := 8200 } } }

/-- The drone address derived from leaderW: its tpu address at port 9900. -/
def droneAddrW : SocketAddr := { ip := ⟨10, 0, 0, 2⟩, port := 9900 }

/-- Concrete external collaborators for the witnesses: a decode that fails
on the text "!!" and otherwise returns one byte per character, an encode
that renders the byte count, and an integer parse accepting only "50". -/
def extW : Externals :=
  { bs58_decode := fun s => if s = "!!" then none else some (List.replicate s.length 1)
  , bs58_encode := fun v => toString v.length
  , parse_i64 := fun s => if s = "50" then some 50 else none }

/-- Concrete parse inputs for the witnesses. -/
def inpW : ParseInputs := { leader_arg := some leaderW, keypair := .ok kpW }

/-- A drone connection on which every step succeeds. -/
def droneOkW : DroneConn :=
  { connect := .ok (), serialize_ok := true, write_all := .ok () }

/-- A client whose every call succeeds. -/
def clientOkW : ThinClient :=
  { poll_get_balance := .ok 50
  , get_last_id := .ok 4
  , transfer_result := .ok (List.replicate signatureSize 9)
  , check_signature := fun _ => true }

/-- A client whose balance poll answers the well-formed "no account
record" error (ErrorKind Other). -/
def clientNoAcctW : ThinClient :=
  { clientOkW with
    poll_get_balance := .error { kind := .other, msg := "no account" } }

/-- A client whose balance poll times out. -/
def clientTimeoutW : ThinClient :=
  { clientOkW with
    poll_get_balance := .error { kind := .timedOut, msg := "timed out" } }

/-- A client that reports every signature as unknown. -/
def clientNotFoundW : ThinClient :=
  { clientOkW with check_signature := fun _ => false }

/-- A client whose reference-id fetch fails. -/
def clientNoIdW : ThinClient :=
  { clientOkW with
    get_last_id := .error { kind := .connectionRefused, msg := "refused" } }

/-- Wallet config fixture at a given command. -/
def cfgW (c : WalletCommand) : WalletConfig :=
  { leader := leaderW, id := kpW, drone_addr := droneAddrW, command := c }

end Wallet

namespace Wallet

/-- C1: for the Balance command the three lookup outcomes are rendered
distinctly, never conflated, and all exit 0 (result ok): success prints
the balance value; the well-formed "no account record" error (ErrorKind
Other) prints the friendly guidance line; every other lookup error prints
the generic error line, which carries the error detail. -/
theorem balance_three_way_render (ext : Externals) (config : WalletConfig)
    (client : ThinClient) (conn : DroneConn)
    (hcmd : config.command = .Balance) :
    (∀ b : Int, client.poll_get_balance = .ok b →
      process_command ext config client conn =
        ([.printedLine "Balance requested...", .polledBalance config.id.pubkey,
          .printedLine ("Your balance is: " ++ toString b)], .ok))
    ∧ (∀ e : IoError, client.poll_get_balance = .error e →
        e.kind = IoErrorKind.other →
        process_command ext config client conn =
          ([.printedLine "Balance requested...", .polledBalance config.id.pubkey,
            .printedLine "No account found! Request an airdrop to get started."], .ok))
    ∧ (∀ e : IoError, client.poll_get_balance = .error e →
        e.kind ≠ IoErrorKind.other →
        process_command ext config client conn =
          ([.printedLine "Balance requested...", .polledBalance config.id.pubkey,
            .printedLine ("An error occurred: " ++ e.debugStr)], .ok)
          ∧ ∃ pre post : String, e.debugStr = pre ++ e.msg ++ post) := by
  refine ⟨?_, ?_, ?_⟩
  · intro b hb
    simp [process_command, hcmd, hb]
  · intro e he hk
    simp [process_command, hcmd, he, hk]
  · intro e he hk
    refine ⟨by simp [process_command, hcmd, he, hk], "Custom (", ")", rfl⟩

/-- C1 witness: the no-account outcome at a concrete client. -/
theorem balance_three_way_render_witness :
    process_command extW (cfgW .Balance) clientNoAcctW droneOkW =
      ([.printedLine "Balance requested...",
        .polledBalance (cfgW WalletCommand.Balance).id.pubkey,
        .printedLine "No account found! Request an airdrop to get started."], .ok) :=
  (balance_three_way_render extW (cfgW .Balance) clientNoAcctW droneOkW rfl).2.1
    { kind := .other, msg := "no account" } rfl rfl

/-- C5: for the Confirm command the boolean from the signature lookup
fully determines the output: true prints exactly "Confirmed", false
prints exactly "Not found", and both paths finish ok (no error path). -/
theorem confirm_boolean_determines_output (ext : Externals)
    (config : WalletConfig) (client : ThinClient) (conn : DroneConn)
    (sig : Signature) (hcmd : config.command = .Confirm sig) :
    (client.check_signature sig = true →
      process_command ext config client conn =
        ([.checkedSignature sig, .printedLine "Confirmed"], .ok))
    ∧ (client.check_signature sig = false →
      process_command ext config client conn =
        ([.checkedSignature sig, .printedLine "Not found"], .ok)) := by
  constructor
  · intro h
    simp [process_command, hcmd, h]
  · intro h
    simp [process_command, hcmd, h]

/-- C5 witness: the unknown-signature outcome at a concrete client. -/
theorem confirm_boolean_determines_output_witness :
    process_command extW (cfgW (.Confirm (List.replicate signatureSize 3)))
        clientNotFoundW droneOkW =
      ([.checkedSignature (List.replicate signatureSize 3),
        .printedLine "Not found"], .ok) :=
  (confirm_boolean_determines_output extW
    (cfgW (.Confirm (List.replicate signatureSize 3))) clientNotFoundW droneOkW
    (List.replicate signatureSize 3) rfl).2 rfl

end Wallet

namespace Wallet

/-- C2: for every AirDrop execution the grant request (carrying the cast
amount and the caller's public key) is sent first; a connect failure on the
grant propagates (errored) and a write failure aborts by panic, in both
cases before any sleep or balance poll appears in the trace; otherwise the
executor sleeps 100 ms and polls the balance exactly once, and a failure of
that post-grant poll is fatal (panic through unwrap), not rendered
gracefully. -/
theorem airdrop_execution (ext : Externals) (config : WalletConfig)
    (client : ThinClient) (conn : DroneConn) (tokens : Int)
    (hcmd : config.command = .AirDrop tokens) :
    (∀ e : IoError, conn.connect = .error e →
      process_command ext config client conn =
        ([.printedLine "Airdrop requested...",
          .printedLine ("Airdropping " ++ toString tokens ++ " tokens"),
          .tcpConnect config.drone_addr], .errored (.io e)))
    ∧ (∀ e : IoError, conn.connect = .ok () → conn.serialize_ok = true →
        conn.write_all = .error e →
        process_command ext config client conn =
          ([.printedLine "Airdrop requested...",
            .printedLine ("Airdropping " ++ toString tokens ++ " tokens"),
            .tcpConnect config.drone_addr],
           .panicked "called Result::unwrap on an Err value"))
    ∧ (∀ b : Int, conn.connect = .ok () → conn.serialize_ok = true →
        conn.write_all = .ok () → client.poll_get_balance = .ok b →
        process_command ext config client conn =
          ([.printedLine "Airdrop requested...",
            .printedLine ("Airdropping " ++ toString tokens ++ " tokens"),
            .tcpConnect config.drone_addr,
            .tcpWrite (.GetAirdrop (i64_as_u64 tokens) config.id.pubkey),
            .sleptMs 100, .polledBalance config.id.pubkey,
            .printedLine ("Your balance is: " ++ toString b)], .ok))
    ∧ (∀ e : IoError, conn.connect = .ok () → conn.serialize_ok = true →
        conn.write_all = .ok () → client.poll_get_balance = .error e →
        process_command ext config client conn =
          ([.printedLine "Airdrop requested...",
            .printedLine ("Airdropping " ++ toString tokens ++ " tokens"),
            .tcpConnect config.drone_addr,
            .tcpWrite (.GetAirdrop (i64_as_u64 tokens) config.id.pubkey),
            .sleptMs 100, .polledBalance config.id.pubkey],
           .panicked "called Result::unwrap on an Err value")) := by
  refine ⟨?_, ?_, ?_, ?_⟩
  · intro e he
    simp [process_command, request_airdrop, hcmd, he]
  · intro e hc hs hw
    simp [process_command, request_airdrop, hcmd, hc, hs, hw]
  · intro b hc hs hw hb
    simp [process_command, request_airdrop, hcmd, hc, hs, hw, hb]
  · intro e hc hs hw hb
    simp [process_command, request_airdrop, hcmd, hc, hs, hw, hb]

/-- C2 witness: the fully successful airdrop of 50 tokens at concrete
fixtures — one grant write, then the sleep, then exactly one poll. -/
theorem airdrop_execution_witness :
    process_command extW (cfgW (.AirDrop 50)) clientOkW droneOkW =
      ([.printedLine "Airdrop requested...",
        .printedLine ("Airdropping " ++ toString (50 : Int) ++ " tokens"),
        .tcpConnect (cfgW (WalletCommand.AirDrop 50)).drone_addr,
        .tcpWrite (.GetAirdrop (i64_as_u64 50) (cfgW (WalletCommand.AirDrop 50)).id.pubkey),
        .sleptMs 100, .polledBalance (cfgW (WalletCommand.AirDrop 50)).id.pubkey,
        .printedLine ("Your balance is: " ++ toString (50 : Int))], .ok) :=
  (airdrop_execution extW (cfgW (.AirDrop 50)) clientOkW droneOkW 50 rfl).2.2.1
    50 rfl rfl rfl rfl

/-- C3: for every Pay execution the reference id is fetched before any
transfer is submitted; a failure of that fetch aborts with a propagated
error and no transfer event; on success exactly one transfer with the
given amount, the caller as signer, and the given recipient is submitted,
and the returned signature is printed base-58-encoded; a transfer failure
propagates with no printed line (no partial-success state exposed). -/
theorem pay_execution (ext : Externals) (config : WalletConfig)
    (client : ThinClient) (conn : DroneConn) (tokens : Int) (to_pk : PublicKey)
    (hcmd : config.command = .Pay tokens to_pk) :
    (∀ e : IoError, client.get_last_id = .error e →
      process_command ext config client conn =
        ([.fetchedLastId], .errored (.io e)))
    ∧ (∀ (lid : Nat) (sig : Signature), client.get_last_id = .ok lid →
        client.transfer_result = .ok sig →
        process_command ext config client conn =
          ([.fetchedLastId,
            .submittedTransfer tokens config.id.pubkey to_pk lid,
            .printedLine (ext.bs58_encode sig)], .ok))
    ∧ (∀ (lid : Nat) (e : IoError), client.get_last_id = .ok lid →
        client.transfer_result = .error e →
        process_command ext config client conn =
          ([.fetchedLastId,
            .submittedTransfer tokens config.id.pubkey to_pk lid],
           .errored (.io e))) := by
  refine ⟨?_, ?_, ?_⟩
  · intro e he
    simp [process_command, hcmd, he]
  · intro lid sig hl ht
    simp [process_command, hcmd, hl, ht]
  · intro lid e hl ht
    simp [process_command, hcmd, hl, ht]

/-- C3 witness: a failed reference-id fetch at a concrete client aborts
the payment with a propagated error and no transfer. -/
theorem pay_execution_witness :
    process_command extW (cfgW (.Pay 50 (List.replicate publicKeySize 5)))
        clientNoIdW droneOkW =
      ([.fetchedLastId],
       .errored (.io { kind := .connectionRefused, msg := "refused" })) :=
  (pay_execution extW (cfgW (.Pay 50 (List.replicate publicKeySize 5)))
    clientNoIdW droneOkW 50 (List.replicate publicKeySize 5) rfl).1
    { kind := .connectionRefused, msg := "refused" } rfl

end Wallet

namespace Wallet

/-- C4: every recipient or signature string whose base-58 decode succeeds
but yields the wrong byte length makes command construction fail with the
BadParameter variant after the help text is re-displayed — no panic and no
constructed command. -/
theorem wrong_length_decode_bad_parameter (ext : Externals)
    (inp : ParseInputs) (id : KeyPair) (hkp : inp.keypair = .ok id)
    (s tokens_str : String) (v : List Nat)
    (hdec : ext.bs58_decode s = some v) :
    (v.length ≠ publicKeySize →
      parse_args ext inp (.pay tokens_str (some s)) =
        (display_actions,
         .errored (.wallet (.BadParameter "Invalid public key"))))
    ∧ (v.length ≠ signatureSize →
      parse_args ext inp (.confirm s) =
        (display_actions,
         .errored (.wallet (.BadParameter "Invalid signature")))) := by
  constructor
  · intro hlen
    simp [parse_args, hkp, hdec, hlen]
  · intro hlen
    simp [parse_args, hkp, hdec, hlen]

/-- C4 witness: the five-character string "wrong" decodes (under the
witness decoder) to five bytes, the wrong width for both a public key and
a signature, and both constructions fail with BadParameter. -/
theorem wrong_length_decode_bad_parameter_witness :
    parse_args extW inpW (.pay "50" (some "wrong")) =
      (display_actions,
       .errored (.wallet (.BadParameter "Invalid public key")))
    ∧ parse_args extW inpW (.confirm "wrong") =
      (display_actions,
       .errored (.wallet (.BadParameter "Invalid signature"))) :=
  ⟨(wrong_length_decode_bad_parameter extW inpW kpW rfl "wrong" "50"
      (List.replicate 5 1) rfl).1 (by decide),
   (wrong_length_decode_bad_parameter extW inpW kpW rfl "wrong" "50"
      (List.replicate 5 1) rfl).2 (by decide)⟩

/-- C6: a pay subcommand with no recipient argument constructs a Pay
command whose recipient is the caller's own public key, derived from the
loaded keypair. -/
theorem pay_defaults_to_self (ext : Externals) (inp : ParseInputs)
    (id : KeyPair) (tokens_str : String) (t : Int)
    (hkp : inp.keypair = .ok id)
    (htok : ext.parse_i64 tokens_str = some t) :
    ∃ cfg : WalletConfig,
      parse_args ext inp (.pay tokens_str none) = ([], .ok cfg)
      ∧ cfg.command = .Pay t id.pubkey ∧ cfg.id = id := by
  refine ⟨{ leader := leaderFrom inp, id := id
          , drone_addr := (leaderFrom inp).contact_info.tpu.set_port 9900
          , command := .Pay t id.pubkey }, ?_, rfl, rfl⟩
  simp [parse_args, hkp, htok]

/-- C6 witness: at the concrete fixtures, the recipient of the
constructed Pay command is the caller's own public key. -/
theorem pay_defaults_to_self_witness :
    ∃ cfg : WalletConfig,
      parse_args extW inpW (.pay "50" none) = ([], .ok cfg)
      ∧ cfg.command = .Pay 50 kpW.pubkey ∧ cfg.id = kpW :=
  pay_defaults_to_self extW inpW kpW "50" 50 rfl rfl

/-- C10: a recipient or signature string that is not valid base-58 at all
is unwrapped with expect: command construction panics instead of
returning any WalletError value, and no help text is printed. -/
theorem invalid_base58_panics (ext : Externals) (inp : ParseInputs)
    (id : KeyPair) (s tokens_str : String)
    (hkp : inp.keypair = .ok id) (hdec : ext.bs58_decode s = none) :
    parse_args ext inp (.pay tokens_str (some s)) =
      ([], .panicked "base58-encoded public key")
    ∧ parse_args ext inp (.confirm s) =
      ([], .panicked "base58-encoded signature") := by
  constructor
  · simp [parse_args, hkp, hdec]
  · simp [parse_args, hkp, hdec]

/-- C10 witness: the string "!!" (outside the base-58 alphabet, so the
witness decoder rejects it) makes both constructions panic. -/
theorem invalid_base58_panics_witness :
    parse_args extW inpW (.pay "50" (some "!!")) =
      ([], .panicked "base58-encoded public key")
    ∧ parse_args extW inpW (.confirm "!!") =
      ([], .panicked "base58-encoded signature") :=
  invalid_base58_panics extW inpW kpW "!!" "50" rfl rfl

/-- C7: with no subcommand supplied, the whole program re-displays the
command summary and fails with CommandNotRecognized (a variant distinct
from BadParameter), and its trace holds no network event: no socket is
bound, no connection attempted, nothing polled or written. -/
theorem no_subcommand_not_recognized_no_network (ext : Externals)
    (inp : ParseInputs) (client : ThinClient) (conn : DroneConn)
    (id : KeyPair) (hkp : inp.keypair = .ok id) :
    main ext inp .noSubcommand client conn =
      (display_actions,
       .errored (.wallet (.CommandNotRecognized "no subcommand given")))
    ∧ (∀ ev ∈ (main ext inp .noSubcommand client conn).1,
        ev.isNetwork = false)
    ∧ (∀ s : String,
        WalletError.CommandNotRecognized "no subcommand given" ≠
          WalletError.BadParameter s) := by
  refine ⟨?_, ?_, ?_⟩
  · simp [main, parse_args, hkp]
  · intro ev hev
    have hmain : (main ext inp .noSubcommand client conn).1 = display_actions := by
      simp [main, parse_args, hkp]
    rw [hmain] at hev
    simp only [display_actions, List.mem_map] at hev
    rcases hev with ⟨s, hs, rfl⟩
    rfl
  · intro s
    simp

/-- C7 witness: the no-subcommand run at the concrete fixtures. -/
theorem no_subcommand_not_recognized_no_network_witness :
    main extW inpW .noSubcommand clientOkW droneOkW =
      (display_actions,
       .errored (.wallet (.CommandNotRecognized "no subcommand given"))) :=
  (no_subcommand_not_recognized_no_network extW inpW clientOkW droneOkW
    kpW rfl).1

end Wallet

namespace Wallet

/-- C8: every config that parse_args accepts carries the drone address
derived from the leader's transaction-service (tpu) address by resetting
the port to 9900, and a token-grant request against it opens one
connection, writes exactly one GetAirdrop request carrying the amount and
the caller's public key, and returns ok with nothing further — no read or
response event exists. -/
theorem airdrop_request_protocol (ext : Externals) (inp : ParseInputs)
    (sub : SubcommandMatches) (conn : DroneConn)
    (evs : List Event) (cfg : WalletConfig)
    (hparse : parse_args ext inp sub = (evs, .ok cfg)) :
    cfg.drone_addr = (leaderFrom inp).contact_info.tpu.set_port 9900
    ∧ cfg.drone_addr.port = 9900
    ∧ cfg.drone_addr.ip = (leaderFrom inp).contact_info.tpu.ip
    ∧ ∀ tokens : Nat, conn.connect = .ok () → conn.serialize_ok = true →
        conn.write_all = .ok () →
        request_airdrop conn cfg.drone_addr cfg.id tokens =
          ([.tcpConnect cfg.drone_addr,
            .tcpWrite (.GetAirdrop tokens cfg.id.pubkey)], .ok) := by
  have h1 : cfg.drone_addr = (leaderFrom inp).contact_info.tpu.set_port 9900 := by
    unfold parse_args at hparse
    repeat any_goals split at hparse
    all_goals simp_all
    all_goals obtain ⟨h_evs, rfl⟩ := hparse
    all_goals rfl
  refine ⟨h1, ?_, ?_, ?_⟩
  · rw [h1]; rfl
  · rw [h1]; rfl
  · intro tokens hc hs hw
    simp [request_airdrop, hc, hs, hw]

/-- C8 witness: parsing the balance subcommand at the concrete fixtures
yields a config whose drone address is leaderW's tpu address at port
9900, and the grant request against it is one connect and one write. -/
theorem airdrop_request_protocol_witness :
    (cfgW .Balance).drone_addr =
      (leaderFrom inpW).contact_info.tpu.set_port 9900
    ∧ (cfgW WalletCommand.Balance).drone_addr.port = 9900
    ∧ (cfgW WalletCommand.Balance).drone_addr.ip =
        (leaderFrom inpW).contact_info.tpu.ip
    ∧ ∀ tokens : Nat, droneOkW.connect = .ok () →
        droneOkW.serialize_ok = true → droneOkW.write_all = .ok () →
        request_airdrop droneOkW (cfgW WalletCommand.Balance).drone_addr
            (cfgW WalletCommand.Balance).id tokens =
          ([.tcpConnect (cfgW WalletCommand.Balance).drone_addr,
            .tcpWrite (.GetAirdrop tokens (cfgW WalletCommand.Balance).id.pubkey)],
           .ok) :=
  airdrop_request_protocol extW inpW .balance droneOkW [] (cfgW .Balance) rfl

/-- C9: the airdrop amount is parsed signed but sent as an unsigned
64-bit value by a reinterpreting cast: for every negative in-range amount
t, the grant request written on the wire carries t + 2^64, with no
rejection. -/
theorem airdrop_negative_amount_wire (ext : Externals)
    (config : WalletConfig) (client : ThinClient) (conn : DroneConn)
    (t : Int) (hcmd : config.command = .AirDrop t)
    (hlo : -(2 : Int) ^ 63 ≤ t) (hneg : t < 0)
    (hc : conn.connect = .ok ()) (hs : conn.serialize_ok = true)
    (hw : conn.write_all = .ok ()) :
    i64_as_u64 t = (t + 2 ^ 64).toNat
    ∧ Event.tcpWrite (.GetAirdrop ((t + 2 ^ 64).toNat) config.id.pubkey)
        ∈ (process_command ext config client conn).1 := by
  have h64 : ((2 : Int) ^ 64) = 18446744073709551616 := by norm_num
  have hcast : i64_as_u64 t = (t + 2 ^ 64).toNat := by
    unfold i64_as_u64
    rw [h64]
    rw [h64] at *
    omega
  refine ⟨hcast, ?_⟩
  rcases hb : client.poll_get_balance with e | b
  · simp [process_command, hcmd, request_airdrop, hc, hs, hw, hb, hcast]
  · simp [process_command, hcmd, request_airdrop, hc, hs, hw, hb, hcast]

/-- C9 witness: requesting an airdrop of -7 tokens at the concrete
fixtures puts 2^64 - 7 on the wire. -/
theorem airdrop_negative_amount_wire_witness :
    i64_as_u64 (-7) = ((-7 : Int) + 2 ^ 64).toNat
    ∧ Event.tcpWrite
        (.GetAirdrop (((-7 : Int) + 2 ^ 64).toNat)
          (cfgW (WalletCommand.AirDrop (-7))).id.pubkey)
        ∈ (process_command extW (cfgW (.AirDrop (-7))) clientOkW droneOkW).1 :=
  airdrop_negative_amount_wire extW (cfgW (.AirDrop (-7))) clientOkW droneOkW
    (-7) rfl (by norm_num) (by norm_num) rfl rfl rfl

end Wallet
